import Mathlib

/-!
Verification of the linehaul repository's CLI and DogStatsD metrics sink.

This file shallowly embeds the Python sources `linehaul/dogstats/base.py`,
`linehaul/dogstats/context.py` and `linehaul/cli.py` into Lean:

* the metrics sink `_BaseTrioDogStatsd` / `TrioDogStatsd` becomes a pure
  state-passing machine (`SinkState`, `runOp`), where the UDP socket is
  modelled by an allocation counter (`socket` holds the id of the
  connected socket, `nextSocket` the next fresh id) and a send is recorded
  as a `(socket id, packet text)` pair;
* the dynamic attribute dictionary that `configure` mutates via `setattr`
  becomes an association list (`Attrs`), with the most recent assignment
  at the head;
* numeric metric values are embedded as `Option Int` (`none` models
  Python's `None`), sample rates and the `random()` draw as `ℚ`;
* `TimedContextManagerDecorator` becomes explicit functions of the entry
  and exit instants (wall-clock time is passed in as a `ℚ` parameter),
  and an emission is recorded as a `TimingCall` (the arguments of the
  `statsd.timing` call performed by `_send`);
* `cli.py`'s `_configure_bigquery` and the `server` / `migrate` commands
  become `Except`-valued functions; a credentials source is modelled by
  its decoded JSON object (an association list of string fields), so
  `json.load` / `json.loads` is the identity on the model.

Python truthiness is embedded where the source relies on it: `None`, `0`,
`""` and `[]` are falsy.
-/

set_option autoImplicit false

namespace Linehaul

/-! ## Embedding of `linehaul/dogstats/base.py` -/

/-- Errors raised by `_BaseTrioDogStatsd.configure` (base.py lines 59-75):
`RuntimeError("Cannot configure after metrics have been sent.")` and a
`TypeError` naming the offending keyword argument. -/
inductive ConfigError where
  | runtimeError
  | typeError (key : String)
deriving DecidableEq

/-- The instance attribute dictionary written by `setattr`; the most
recently assigned binding is at the head. -/
abbrev Attrs (V : Type) := List (String × V)

/-- Python `setattr(self, key, value)`: record the assignment. -/
def setAttr {V : Type} (attrs : Attrs V) (key : String) (value : V) : Attrs V :=
  (key, value) :: attrs

/-- Python `getattr(self, key)`: the most recent assignment wins. -/
def getAttr {V : Type} (attrs : Attrs V) (key : String) : Option V :=
  List.lookup key attrs

/-- The literal allow-list of `configure` (base.py lines 64-72); note the
entry `"use_ms=False"` where `"use_ms"` was evidently intended. -/
def allowedConfigKeys : List String :=
  ["host", "port", "max_buffer_size", "namespace", "constant_tags",
   "use_ms=False", "use_default_route"]

/-- The `for key, value in kwargs.items()` loop of `configure`
(base.py lines 63-75): check each key against the allow-list, raising
`TypeError` at the first unknown key, and `setattr` every key seen
before it. -/
def configureLoop {V : Type} : Attrs V → List (String × V) → Attrs V × Option ConfigError
  | attrs, [] => (attrs, none)
  | attrs, (key, value) :: rest =>
    if key ∈ allowedConfigKeys then configureLoop (setAttr attrs key value) rest
    else (attrs, some (ConfigError.typeError key))

/-- Method `_BaseTrioDogStatsd.configure` (base.py lines 59-75).
`hasSocketAttr` models `hasattr(self, "_socket")`. -/
def configure {V : Type} (hasSocketAttr : Bool) (attrs : Attrs V)
    (kwargs : List (String × V)) : Attrs V × Option ConfigError :=
  if hasSocketAttr then (attrs, some ConfigError.runtimeError)
  else configureLoop attrs kwargs

/-- The sink attributes read by the metric-sending path
(base.py lines 53-57; `namespace_` stands for the Python attribute
`namespace`, a Lean keyword). `none` models Python `None`; `[]` models a
`None` or empty `constant_tags` list (both are falsy wherever the source
tests them). -/
structure DogStatsdConfig where
  host : String
  port : Int
  namespace_ : Option String
  constant_tags : List String
  use_ms : Bool
deriving DecidableEq

/-- The mutable sink state: configuration plus the lazily created UDP
socket. `socket = some s` means `self._socket` is the socket with
allocation id `s`; `nextSocket` is the id `trio.socket.socket(...)` would
allocate next. -/
structure SinkState where
  cfg : DogStatsdConfig
  socket : Option Nat
  nextSocket : Nat
deriving DecidableEq

/-- Method `_BaseTrioDogStatsd._add_constant_tags` (base.py lines 77-83). -/
def addConstantTags (cfg : DogStatsdConfig) (tags : List String) : List String :=
  if cfg.constant_tags ≠ [] then
    if tags ≠ [] then tags ++ cfg.constant_tags else cfg.constant_tags
  else tags

/-- Method `_BaseTrioDogStatsd._escape_event_content` (base.py lines 85-86). -/
def escapeEventContent (s : String) : String :=
  s.replace "\n" "\\n"

/-- Method `_BaseTrioDogStatsd._escape_service_check_message` (base.py
lines 88-89); the Python literal `"m\:"` is the two-character escape
backslash-colon. -/
def escapeServiceCheckMessage (s : String) : String :=
  (s.replace "\n" "\\n").replace "m:" "m\\:"

/-- Method `_BaseTrioDogStatsd._get_socket` (base.py lines 91-97): create and
connect a fresh socket if `self._socket` is absent or `None`, then return
it. -/
def getSocket (st : SinkState) : SinkState × Nat :=
  match st.socket with
  | some s => (st, s)
  | none => ({ st with socket := some st.nextSocket, nextSocket := st.nextSocket + 1 },
             st.nextSocket)

/-- Method `_BaseTrioDogStatsd._send_to_server` (base.py lines 104-106): fetch
the (possibly fresh) socket and send one packet on it. -/
def sendToServer (st : SinkState) (packet : String) : SinkState × List (Nat × String) :=
  ((getSocket st).1, [((getSocket st).2, packet)])

/-- The namespace component of a metric packet:
`(self.namespace + ".") if self.namespace else ""` (base.py line 125);
`None` and `""` are both falsy. -/
def namespacePart (cfg : DogStatsdConfig) : String :=
  match cfg.namespace_ with
  | some ns => if ns ≠ "" then ns ++ "." else ""
  | none => ""

/-- The packet text built by `_report` (base.py lines 120-131):
`"%s%s:%s|%s%s%s" % (ns, metric, value, metric_type, rate-part, tag-part)`
after the constant tags have been merged in. -/
def metricPayload (cfg : DogStatsdConfig) (metric : String) (metric_type : String)
    (value : Int) (tags : List String) (sample_rate : ℚ) : String :=
  let fullTags := addConstantTags cfg tags
  namespacePart cfg ++ metric ++ ":" ++ toString value ++ "|" ++ metric_type
    ++ (if sample_rate ≠ 1 then "|@" ++ toString sample_rate else "")
    ++ (if fullTags ≠ [] then "|#" ++ String.intercalate "," fullTags else "")

/-- Method `_BaseTrioDogStatsd._report` (base.py lines 108-134): drop a `None`
value; drop the packet when sampled out (`sample_rate != 1 and
random() > sample_rate`, with the `random()` draw passed in as `rand`);
otherwise format the packet and send it. -/
def report (st : SinkState) (metric metric_type : String) (value : Option Int)
    (tags : List String) (sample_rate rand : ℚ) : SinkState × List (Nat × String) :=
  match value with
  | none => (st, [])
  | some v =>
    if sample_rate ≠ 1 ∧ rand > sample_rate then (st, [])
    else sendToServer st (metricPayload st.cfg metric metric_type v tags sample_rate)

/-- Value computation of `TrioDogStatsd.decrement`
(base.py line 166): `metric_value = -value if value else value`, where
both `None` and `0` are falsy. -/
def decrementValue (value : Option Int) : Option Int :=
  match value with
  | none => none
  | some v => if v ≠ 0 then some (-v) else some v

/-- The event packet built by `TrioDogStatsd.event`
(base.py lines 243-263). -/
def eventPayload (cfg : DogStatsdConfig) (title text : String)
    (alert_type aggregation_key source_type_name : Option String)
    (date_happened : Option Int) (priority : Option String)
    (tags : List String) (hostname : Option String) : String :=
  let title := escapeEventContent title
  let text := escapeEventContent text
  let tags := addConstantTags cfg tags
  let s := "_e\x7b" ++ toString title.length ++ "," ++ toString text.length
             ++ "\x7d:" ++ title ++ "|" ++ text
  let s := match date_happened with
    | some d => if d ≠ 0 then s ++ "|d:" ++ toString d else s
    | none => s
  let s := match hostname with
    | some h => if h ≠ "" then s ++ "|h:" ++ h else s
    | none => s
  let s := match aggregation_key with
    | some k => if k ≠ "" then s ++ "|k:" ++ k else s
    | none => s
  let s := match priority with
    | some p => if p ≠ "" then s ++ "|p:" ++ p else s
    | none => s
  let s := match source_type_name with
    | some n => if n ≠ "" then s ++ "|s:" ++ n else s
    | none => s
  let s := match alert_type with
    | some a => if a ≠ "" then s ++ "|t:" ++ a else s
    | none => s
  if tags ≠ [] then s ++ "|#" ++ String.intercalate "," tags else s

/-- The service-check packet built by `TrioDogStatsd.service_check`
(base.py lines 280-296). -/
def serviceCheckPayload (cfg : DogStatsdConfig) (check_name : String) (status : Int)
    (tags : List String) (timestamp : Option Int) (hostname : Option String)
    (message : Option String) : String :=
  let message := match message with
    | some m => escapeServiceCheckMessage m
    | none => ""
  let s := "_sc|" ++ check_name ++ "|" ++ toString status
  let tags := addConstantTags cfg tags
  let s := match timestamp with
    | some t => if t ≠ 0 then s ++ "|d:" ++ toString t else s
    | none => s
  let s := match hostname with
    | some h => if h ≠ "" then s ++ "|h:" ++ h else s
    | none => s
  let s := if tags ≠ [] then s ++ "|#" ++ String.intercalate "," tags else s
  if message ≠ "" then s ++ "|m:" ++ message else s

/-- One public metric-sending operation of `TrioDogStatsd`
(base.py lines 141-298). -/
inductive MetricOp where
  | gauge (metric : String) (value : Option Int) (tags : List String) (sample_rate : ℚ)
  | increment (metric : String) (value : Option Int) (tags : List String) (sample_rate : ℚ)
  | decrement (metric : String) (value : Option Int) (tags : List String) (sample_rate : ℚ)
  | histogram (metric : String) (value : Option Int) (tags : List String) (sample_rate : ℚ)
  | distribution (metric : String) (value : Option Int) (tags : List String) (sample_rate : ℚ)
  | timing (metric : String) (value : Option Int) (tags : List String) (sample_rate : ℚ)
  | set (metric : String) (value : Option Int) (tags : List String) (sample_rate : ℚ)
  | event (title text : String) (alert_type aggregation_key source_type_name : Option String)
      (date_happened : Option Int) (priority : Option String)
      (tags : List String) (hostname : Option String)
  | service_check (check_name : String) (status : Int) (tags : List String)
      (timestamp : Option Int) (hostname : Option String) (message : Option String)

/-- Run one metric-sending operation: the new state, the packets sent as
`(socket id, text)` pairs, and whether the operation raised (only `event`
can, on an oversize payload, base.py lines 265-269). `rand` is the value
the single possible `random()` call would return. -/
def runOp (st : SinkState) (op : MetricOp) (rand : ℚ) :
    SinkState × List (Nat × String) × Bool :=
  match op with
  | .gauge m v t r =>
    ((report st m "g" v t r rand).1, (report st m "g" v t r rand).2, false)
  | .increment m v t r =>
    ((report st m "c" v t r rand).1, (report st m "c" v t r rand).2, false)
  | .decrement m v t r =>
    ((report st m "c" (decrementValue v) t r rand).1,
     (report st m "c" (decrementValue v) t r rand).2, false)
  | .histogram m v t r =>
    ((report st m "h" v t r rand).1, (report st m "h" v t r rand).2, false)
  | .distribution m v t r =>
    ((report st m "d" v t r rand).1, (report st m "d" v t r rand).2, false)
  | .timing m v t r =>
    ((report st m "ms" v t r rand).1, (report st m "ms" v t r rand).2, false)
  | .set m v t r =>
    ((report st m "s" v t r rand).1, (report st m "s" v t r rand).2, false)
  | .event title text alert_type aggregation_key source_type_name date_happened
      priority tags hostname =>
    let payload := eventPayload st.cfg title text alert_type aggregation_key
      source_type_name date_happened priority tags hostname
    if payload.length > 8 * 1024 then (st, [], true)
    else ((sendToServer st payload).1, (sendToServer st payload).2, false)
  | .service_check check_name status tags timestamp hostname message =>
    ((sendToServer st (serviceCheckPayload st.cfg check_name status tags timestamp
        hostname message)).1,
     (sendToServer st (serviceCheckPayload st.cfg check_name status tags timestamp
        hostname message)).2, false)

/-! ## Embedding of `linehaul/dogstats/context.py` -/

/-- Python truthiness of an optional string: `None` and `""` are falsy. -/
def truthyStr (s : Option String) : Bool :=
  match s with
  | none => false
  | some s => !s.isEmpty

/-- Class `TimedContextManagerDecorator` (context.py lines 5-17), as constructed
by `TrioDogStatsd.timed` (base.py lines 193-216). `statsd_use_ms` is the
wrapped sink's `use_ms` attribute, the only sink attribute `_send`
reads. -/
structure TimedContextManagerDecorator where
  statsd_use_ms : Bool
  metric : Option String
  tags : List String
  sample_rate : ℚ
  use_ms : Option Bool
deriving DecidableEq

/-- Method `TrioDogStatsd.timed` (base.py line 216):
`TimedContextManagerDecorator(self, metric, tags, sample_rate, use_ms)`. -/
def timed (statsd_use_ms : Bool) (metric : Option String) (tags : List String)
    (sample_rate : ℚ) (use_ms : Option Bool) : TimedContextManagerDecorator :=
  ⟨statsd_use_ms, metric, tags, sample_rate, use_ms⟩

/-- Python 3 `round` at integer precision: round half to even. -/
def pyRound (q : ℚ) : ℤ :=
  let f := q.floor
  let frac := q - (f : ℚ)
  if frac < 1 / 2 then f
  else if 1 / 2 < frac then f + 1
  else if f % 2 = 0 then f else f + 1

/-- Line `use_ms = self.use_ms if self.use_ms is not None else self.statsd.use_ms`
(context.py line 50). -/
def effectiveUseMs (cm : TimedContextManagerDecorator) : Bool :=
  match cm.use_ms with
  | some b => b
  | none => cm.statsd_use_ms

/-- The elapsed value reported by `_send` (context.py lines 48-51):
`elapsed = time() - start`, converted by `int(round(1000 * elapsed))`
when `use_ms` is in effect. `start` and `now` are the wall-clock instants
`time()` returned at entry and inside `_send`. -/
def timedValue (cm : TimedContextManagerDecorator) (start now : ℚ) : ℚ :=
  let elapsed := now - start
  if effectiveUseMs cm then ((pyRound (1000 * elapsed) : ℤ) : ℚ) else elapsed

/-- The arguments of one `statsd.timing(...)` call. -/
structure TimingCall where
  metric : Option String
  value : ℚ
  tags : List String
  sample_rate : ℚ
deriving DecidableEq

/-- Method `_send` (context.py lines 48-53):
`await self.statsd.timing(self.metric, elapsed, self.tags, self.sample_rate)`. -/
def timedSend (cm : TimedContextManagerDecorator) (start now : ℚ) : TimingCall :=
  ⟨cm.metric, timedValue cm start now, cm.tags, cm.sample_rate⟩

/-- The metric-defaulting step of `__call__` (context.py lines 25-26):
`if not self.metric: self.metric = "%s.%s" % (func.__module__, func.__name__)`. -/
def decoratorMetric (cm : TimedContextManagerDecorator) (module funcName : String) :
    TimedContextManagerDecorator :=
  if truthyStr cm.metric then cm
  else { cm with metric := some (module ++ "." ++ funcName) }

/-- One call of the `wrapped` coroutine produced by `__call__`
(context.py lines 28-36): `start = time()`, then
`try: return await func(...) finally: await self._send(start)` — the
body's outcome (a value or a raised exception, embedded as `Except`)
propagates unchanged, and the `finally` clause performs exactly one
`_send` on either path. `start` and `stop` are the wall-clock instants at
entry and at the `finally` clause. -/
def wrappedCall {E A : Type} (cm : TimedContextManagerDecorator)
    (module funcName : String) (body : Except E A) (start stop : ℚ) :
    Except E A × List TimingCall :=
  let cm := decoratorMetric cm module funcName
  (body, [timedSend cm start stop])

/-- Method `__aenter__` (context.py lines 38-42): raise `TypeError` when the
metric is falsy, else record `self.start = time()`. -/
def aenter (cm : TimedContextManagerDecorator) (now : ℚ) : Except String ℚ :=
  if truthyStr cm.metric then Except.ok now
  else Except.error "Cannot used timed without a metric!"

/-- Method `__aexit__` (context.py lines 44-46): one `_send` regardless of the
exception information passed in. -/
def aexit (cm : TimedContextManagerDecorator) (start now : ℚ) : List TimingCall :=
  [timedSend cm start now]

/-- One `async with` use of the context manager: `__aenter__` at the
entry instant, the body's outcome, then `__aexit__` at the exit instant
(Python's `with` runs `__aexit__` on both the normal and the raising exit
path, forwarding the exception info, which `__aexit__` ignores). -/
def contextRun {E A : Type} (cm : TimedContextManagerDecorator)
    (entryTime exitTime : ℚ) (body : Except E A) :
    Except String (Except E A × List TimingCall) :=
  match aenter cm entryTime with
  | Except.error e => Except.error e
  | Except.ok start => Except.ok (body, aexit cm start exitTime)

/-! ## Embedding of `linehaul/cli.py` -/

/-- A decoded service-account credentials JSON object: its string fields.
The model identifies a readable `--credentials-file` / decoded
`--credentials-blob` with the JSON object it parses to, so `json.load` /
`json.loads` is the identity here. -/
abbrev Creds := List (String × String)

/-- The `BigQuery(...)` constructor call of `_configure_bigquery`
(cli.py lines 57-61): the positional arguments `credentials["client_email"]`
and `credentials["private_key"]`, and the `max_connections` keyword. -/
structure BigQuery where
  client_email : String
  private_key : String
  max_connections : Option Int
deriving DecidableEq

/-- Errors the CLI startup path can raise: `click.UsageError` and a
`KeyError` from a missing credentials field. -/
inductive CliError where
  | usageError (message : String)
  | keyError (key : String)
deriving DecidableEq

/-- Subscription `credentials[key]`: Python dict subscription, `KeyError` on a missing
key. -/
def credGet (credentials : Creds) (key : String) : Except CliError String :=
  match List.lookup key credentials with
  | some v => Except.ok v
  | none => Except.error (CliError.keyError key)

/-- The `BigQuery(credentials["client_email"], credentials["private_key"],
max_connections=api_max_connections)` call (cli.py lines 57-61). -/
def mkBigQuery (credentials : Creds) (max_connections : Option Int) :
    Except CliError BigQuery := do
  let email ← credGet credentials "client_email"
  let pkey ← credGet credentials "private_key"
  Except.ok ⟨email, pkey, max_connections⟩

/-- Function `_configure_bigquery` (cli.py lines 41-61): usage errors for zero or
two credential sources, otherwise decode the one supplied source and
build the client from it. -/
def configure_bigquery (credentials_file credentials_blob : Option Creds)
    (api_max_connections : Option Int) : Except CliError BigQuery :=
  match credentials_file, credentials_blob with
  | none, none =>
    Except.error (CliError.usageError
      "Must pass either --credentials-file or --credentials-blob")
  | some _, some _ =>
    Except.error (CliError.usageError
      "Cannot pass both --credentials-file and --credentials-blob")
  | some credentials, none => mkBigQuery credentials api_max_connections
  | none, some credentials => mkBigQuery credentials api_max_connections

/-- The option values of the `server` command (cli.py lines 152-291),
excluding the two credential sources. -/
structure ServerOpts where
  bind : String
  port : Int
  token : Option String
  max_line_size : Int
  recv_size : Int
  cleanup_timeout : Int
  queued_events : Int
  batch_size : Int
  batch_timeout : Int
  retry_max_attempts : Int
  retry_max_wait : ℚ
  retry_multiplier : ℚ
  api_timeout : Int
  api_max_connections : Int
deriving DecidableEq

/-- The argument set the `server` command passes to the underlying server
function via `trio.run(partial(server_, ...))` (cli.py lines 325-344) —
note that it has no `cleanup_timeout` field, exactly as the source's call
has no such keyword. -/
structure ServerCall where
  bq : BigQuery
  table : String
  bind : String
  port : Int
  token : Option String
  max_line_size : Int
  recv_size : Int
  qsize : Int
  batch_size : Int
  batch_timeout : Int
  retry_max_attempts : Int
  retry_max_wait : ℚ
  retry_multiplier : ℚ
  api_timeout : Int
deriving DecidableEq

/-- The `server` command body (cli.py lines 273-344): configure BigQuery
(propagating its errors before anything is run), then hand the listed
arguments to the server function. The debug-logging loop (lines 305-322)
only writes log lines and is not modelled. -/
def serverCommand (credentials_file credentials_blob : Option Creds)
    (opts : ServerOpts) (table : String) : Except CliError ServerCall := do
  let bq ← configure_bigquery credentials_file credentials_blob
    (some opts.api_max_connections)
  Except.ok ⟨bq, table, opts.bind, opts.port, opts.token, opts.max_line_size,
    opts.recv_size, opts.queued_events, opts.batch_size, opts.batch_timeout,
    opts.retry_max_attempts, opts.retry_max_wait, opts.retry_multiplier,
    opts.api_timeout⟩

/-- The argument set the `migrate` command passes to
`trio.run(migrate_, bq, table, schema)` (cli.py line 368). -/
structure MigrateCall where
  bq : BigQuery
  table : String
  schema : String
deriving DecidableEq

/-- The `migrate` command body (cli.py lines 359-368): configure BigQuery
with no `api_max_connections` argument (so `None`), load the packaged
schema (passed in here as an opaque string), and run the migration. -/
def migrateCommand (credentials_file credentials_blob : Option Creds)
    (table schema : String) : Except CliError MigrateCall := do
  let bq ← configure_bigquery credentials_file credentials_blob none
  Except.ok ⟨bq, table, schema⟩

/-- The metric packet as the spec's words describe the DogStatsD text
protocol: the namespace followed by `.` (only when a namespace is
configured), the metric name, `:`, the value, `|`, the type code, then
`|#` and the comma-joined tag list (constant tags appended after the
call's tags) only when tags are present. This is the refinement target
the source's `metricPayload` is compared against; it is written from the
spec, not from the source. -/
def specMetricPacket (cfg : DogStatsdConfig) (metric typeCode : String) (value : Int)
    (callTags : List String) : String :=
  (match cfg.namespace_ with
   | some ns => if ns ≠ "" then ns ++ "." else ""
   | none => "")
  ++ metric ++ ":" ++ toString value ++ "|" ++ typeCode
  ++ (if callTags ++ cfg.constant_tags ≠ [] then
        "|#" ++ String.intercalate "," (callTags ++ cfg.constant_tags)
      else "")

/-! ## Theorems -/

/-- Helper for the non-atomicity claim: the `configure` loop applies every
allow-listed key it sees before the first unknown key, then stops with a
`TypeError` for that key. -/
theorem configureLoop_append {V : Type} (attrs : Attrs V) (pre : List (String × V))
    (key : String) (v : V) (rest : List (String × V))
    (hpre : ∀ p ∈ pre, p.1 ∈ allowedConfigKeys) (hkey : key ∉ allowedConfigKeys) :
    configureLoop attrs (pre ++ (key, v) :: rest)
      = (pre.foldl (fun a p => setAttr a p.1 p.2) attrs,
         some (ConfigError.typeError key)) := by
  induction pre generalizing attrs with
  | nil => simp [configureLoop, hkey]
  | cons p pre ih =>
    obtain ⟨k0, v0⟩ := p
    have hp : k0 ∈ allowedConfigKeys := hpre (k0, v0) (by simp)
    simp only [List.cons_append, configureLoop, if_pos hp, List.foldl_cons]
    exact ih (setAttr attrs k0 v0) (fun q hq => hpre q (List.mem_cons_of_mem _ hq))

/-- C1: before any metric has been sent, `configure` rejects the keyword
`use_ms` with a `TypeError` — the allow-list contains the mis-spelled
entry `"use_ms=False"` instead of `"use_ms"` — while each of `host`,
`port`, `max_buffer_size`, `namespace`, `constant_tags` and
`use_default_route` is accepted and assigned to the attribute of the same
name. -/
theorem configure_rejects_misspelled_use_ms (V : Type) (attrs : Attrs V) (x : V) :
    configure false attrs [("use_ms", x)]
      = (attrs, some (ConfigError.typeError "use_ms")) ∧
    "use_ms=False" ∈ allowedConfigKeys ∧ "use_ms" ∉ allowedConfigKeys ∧
    ∀ key, key ∈ ["host", "port", "max_buffer_size", "namespace", "constant_tags",
        "use_default_route"] →
      ∀ v : V, configure false attrs [(key, v)] = (setAttr attrs key v, none) ∧
        getAttr (setAttr attrs key v) key = some v := by
  refine ⟨?_, by decide, by decide, ?_⟩
  · simp [configure, configureLoop, allowedConfigKeys]
  · intro key hk v
    fin_cases hk <;>
      simp [configure, configureLoop, allowedConfigKeys, setAttr, getAttr, List.lookup]

/-- Witness for C1 at concrete inputs. -/
theorem configure_rejects_misspelled_use_ms_witness :
    configure false ([] : Attrs Nat) [("use_ms", 0)]
      = ([], some (ConfigError.typeError "use_ms")) ∧
    configure false ([] : Attrs Nat) [("host", 7)] = (setAttr [] "host" 7, none) :=
  ⟨(configure_rejects_misspelled_use_ms Nat [] 0).1,
   ((configure_rejects_misspelled_use_ms Nat [] 0).2.2.2 "host" (by simp) 7).1⟩

/-- C10: `configure` is not atomic on error — it checks and assigns one
key at a time in iteration order, raising `TypeError` at the first
unknown key with every earlier valid key already assigned — and once the
`_socket` attribute exists every call raises `RuntimeError` with no
attribute modified. -/
theorem configure_not_atomic (V : Type) (attrs : Attrs V) (pre : List (String × V))
    (key : String) (v : V) (rest : List (String × V))
    (hpre : ∀ p ∈ pre, p.1 ∈ allowedConfigKeys) (hkey : key ∉ allowedConfigKeys) :
    configure false attrs (pre ++ (key, v) :: rest)
      = (pre.foldl (fun a p => setAttr a p.1 p.2) attrs,
         some (ConfigError.typeError key)) ∧
    ∀ (attrs2 : Attrs V) (kwargs : List (String × V)),
      configure true attrs2 kwargs = (attrs2, some ConfigError.runtimeError) := by
  constructor
  · simpa [configure] using configureLoop_append attrs pre key v rest hpre hkey
  · intro attrs2 kwargs
    simp [configure]

/-- Witness for C10: `host` is applied before the `TypeError` on
`use_ms`, and a configured socket forces `RuntimeError`. -/
theorem configure_not_atomic_witness :
    configure false ([] : Attrs Nat) ([("host", 1)] ++ ("use_ms", 2) :: [("port", 3)])
      = ([("host", 1)], some (ConfigError.typeError "use_ms")) ∧
    configure true ([("host", 9)] : Attrs Nat) [("port", 2)]
      = ([("host", 9)], some ConfigError.runtimeError) := by
  have h := configure_not_atomic Nat [] [("host", 1)] "use_ms" 2 [("port", 3)]
    (by decide) (by decide)
  exact ⟨by simpa [setAttr] using h.1, h.2 [("host", 9)] [("port", 2)]⟩

/-- C2: `decrement` with value `0` reports a counter packet whose value
is `0` (the falsy branch keeps the value un-negated), and with any other
non-`None` value reports the counter packet carrying the arithmetic
negation of the argument. -/
theorem decrement_zero_noop_value (st : SinkState) (metric : String) (tags : List String)
    (rand : ℚ) (v : Int) :
    runOp st (MetricOp.decrement metric (some v) tags 1) rand
      = ((getSocket st).1,
         [((getSocket st).2,
           metricPayload st.cfg metric "c" (if v = 0 then 0 else -v) tags 1)],
         false) := by
  by_cases h : v = 0 <;>
    simp [runOp, report, decrementValue, sendToServer, h]

/-- C9: every metric operation given a `None` value — including
`decrement`, whose value computation maps `None` to `None` — sends no
packet, raises nothing, and leaves the sink state unchanged. -/
theorem none_value_silently_dropped (st : SinkState) (metric : String)
    (tags : List String) (sample_rate rand : ℚ) :
    runOp st (MetricOp.gauge metric none tags sample_rate) rand = (st, [], false) ∧
    runOp st (MetricOp.increment metric none tags sample_rate) rand = (st, [], false) ∧
    runOp st (MetricOp.decrement metric none tags sample_rate) rand = (st, [], false) ∧
    runOp st (MetricOp.histogram metric none tags sample_rate) rand = (st, [], false) ∧
    runOp st (MetricOp.distribution metric none tags sample_rate) rand = (st, [], false) ∧
    runOp st (MetricOp.timing metric none tags sample_rate) rand = (st, [], false) ∧
    runOp st (MetricOp.set metric none tags sample_rate) rand = (st, [], false) :=
  ⟨rfl, rfl, rfl, rfl, rfl, rfl, rfl⟩

/-- At sample rate 1, the packet `_report` formats is exactly the packet
the spec's protocol description prescribes. -/
theorem metricPayload_one_eq_spec (cfg : DogStatsdConfig) (metric typeCode : String)
    (value : Int) (tags : List String) :
    metricPayload cfg metric typeCode value tags 1
      = specMetricPacket cfg metric typeCode value tags := by
  unfold metricPayload specMetricPacket addConstantTags namespacePart
  by_cases h1 : cfg.constant_tags = [] <;> by_cases h2 : tags = [] <;>
    simp [h1, h2]

/-- C6: each of `gauge`, `increment`, `histogram`, `distribution`,
`timing`, `set` with a non-`None` value and sample rate 1 sends exactly
one packet, whose text follows the DogStatsD protocol with type codes
`g`, `c`, `h`, `d`, `ms`, `s` respectively: optional `namespace.` prefix,
`metric:value|code`, and `|#tag,...` (constant tags after call tags) only
when tags are present. -/
theorem metric_packet_format (st : SinkState) (metric : String) (v : Int)
    (tags : List String) (rand : ℚ) :
    runOp st (MetricOp.gauge metric (some v) tags 1) rand
      = ((getSocket st).1,
         [((getSocket st).2, specMetricPacket st.cfg metric "g" v tags)], false) ∧
    runOp st (MetricOp.increment metric (some v) tags 1) rand
      = ((getSocket st).1,
         [((getSocket st).2, specMetricPacket st.cfg metric "c" v tags)], false) ∧
    runOp st (MetricOp.histogram metric (some v) tags 1) rand
      = ((getSocket st).1,
         [((getSocket st).2, specMetricPacket st.cfg metric "h" v tags)], false) ∧
    runOp st (MetricOp.distribution metric (some v) tags 1) rand
      = ((getSocket st).1,
         [((getSocket st).2, specMetricPacket st.cfg metric "d" v tags)], false) ∧
    runOp st (MetricOp.timing metric (some v) tags 1) rand
      = ((getSocket st).1,
         [((getSocket st).2, specMetricPacket st.cfg metric "ms" v tags)], false) ∧
    runOp st (MetricOp.set metric (some v) tags 1) rand
      = ((getSocket st).1,
         [((getSocket st).2, specMetricPacket st.cfg metric "s" v tags)], false) := by
  refine ⟨?_, ?_, ?_, ?_, ?_, ?_⟩ <;>
    simp [runOp, report, sendToServer, metricPayload_one_eq_spec]

/-- Helper for the socket claim: `_send_to_server` keeps an existing
socket and sends on it; on a fresh state it allocates the next socket id
and sends on that. -/
theorem sendToServer_socket (st : SinkState) (p : String) :
    (∀ s, st.socket = some s →
      ((sendToServer st p).1).socket = some s ∧
      ∀ q ∈ (sendToServer st p).2, q.1 = s) ∧
    (st.socket = none →
      ((sendToServer st p).1).socket = some st.nextSocket ∧
      ∀ q ∈ (sendToServer st p).2, q.1 = st.nextSocket) := by
  constructor
  · intro s hs
    simp [sendToServer, getSocket, hs]
  · intro hs
    simp [sendToServer, getSocket, hs]

/-- Helper for the socket claim: every metric operation either leaves the
state untouched and sends nothing, or behaves exactly like one
`_send_to_server` call. -/
theorem runOp_shape (st : SinkState) (op : MetricOp) (rand : ℚ) :
    ((runOp st op rand).1 = st ∧ (runOp st op rand).2.1 = []) ∨
    ∃ p, (runOp st op rand).1 = (sendToServer st p).1 ∧
      (runOp st op rand).2.1 = (sendToServer st p).2 := by
  have hreport : ∀ (m c : String) (value : Option Int) (tags : List String) (r : ℚ),
      report st m c value tags r rand = (st, []) ∨
      ∃ p, report st m c value tags r rand = sendToServer st p := by
    intro m c value tags r
    unfold report
    match value with
    | none => exact Or.inl rfl
    | some v =>
      by_cases h : r ≠ 1 ∧ rand > r
      · exact Or.inl (by simp [h])
      · exact Or.inr ⟨metricPayload st.cfg m c v tags r, by simp [h]⟩
  cases op with
  | gauge m v t r =>
    rcases hreport m "g" v t r with h | ⟨p, h⟩
    · exact Or.inl (by simp [runOp, h])
    · exact Or.inr ⟨p, by simp [runOp, h]⟩
  | increment m v t r =>
    rcases hreport m "c" v t r with h | ⟨p, h⟩
    · exact Or.inl (by simp [runOp, h])
    · exact Or.inr ⟨p, by simp [runOp, h]⟩
  | decrement m v t r =>
    rcases hreport m "c" (decrementValue v) t r with h | ⟨p, h⟩
    · exact Or.inl (by simp [runOp, h])
    · exact Or.inr ⟨p, by simp [runOp, h]⟩
  | histogram m v t r =>
    rcases hreport m "h" v t r with h | ⟨p, h⟩
    · exact Or.inl (by simp [runOp, h])
    · exact Or.inr ⟨p, by simp [runOp, h]⟩
  | distribution m v t r =>
    rcases hreport m "d" v t r with h | ⟨p, h⟩
    · exact Or.inl (by simp [runOp, h])
    · exact Or.inr ⟨p, by simp [runOp, h]⟩
  | timing m v t r =>
    rcases hreport m "ms" v t r with h | ⟨p, h⟩
    · exact Or.inl (by simp [runOp, h])
    · exact Or.inr ⟨p, by simp [runOp, h]⟩
  | set m v t r =>
    rcases hreport m "s" v t r with h | ⟨p, h⟩
    · exact Or.inl (by simp [runOp, h])
    · exact Or.inr ⟨p, by simp [runOp, h]⟩
  | event title text alert_type aggregation_key source_type_name date_happened
      priority tags hostname =>
    by_cases h : (eventPayload st.cfg title text alert_type aggregation_key
        source_type_name date_happened priority tags hostname).length > 8 * 1024
    · exact Or.inl (by simp [runOp, h])
    · exact Or.inr ⟨eventPayload st.cfg title text alert_type aggregation_key
        source_type_name date_happened priority tags hostname, by simp [runOp, h]⟩
  | service_check check_name status tags timestamp hostname message =>
    exact Or.inr ⟨serviceCheckPayload st.cfg check_name status tags timestamp
      hostname message, by simp [runOp]⟩

/-- C5: the UDP socket is a lazy singleton that metric operations never
close — once a socket exists, every operation keeps exactly that socket
and all its sends use it; with no socket yet, an operation either sends
nothing and changes nothing, or allocates the one fresh socket and sends
on it. -/
theorem socket_lazy_singleton (st : SinkState) (op : MetricOp) (rand : ℚ) :
    (∀ s, st.socket = some s →
      ((runOp st op rand).1).socket = some s ∧
      ∀ q ∈ (runOp st op rand).2.1, q.1 = s) ∧
    (st.socket = none →
      ((runOp st op rand).2.1 = [] ∧ (runOp st op rand).1 = st) ∨
      (((runOp st op rand).1).socket = some st.nextSocket ∧
       ∀ q ∈ (runOp st op rand).2.1, q.1 = st.nextSocket)) := by
  rcases runOp_shape st op rand with ⟨h1, h2⟩ | ⟨p, h1, h2⟩
  · constructor
    · intro s hs
      rw [h1, h2]
      exact ⟨hs, by simp⟩
    · intro _
      exact Or.inl ⟨h2, h1⟩
  · constructor
    · intro s hs
      rw [h1, h2]
      exact (sendToServer_socket st p).1 s hs
    · intro hs
      rw [h1, h2]
      exact Or.inr ((sendToServer_socket st p).2 hs)

/-- Witness for C5: a sink that already holds socket 5 keeps socket 5
across a gauge and sends on it. -/
theorem socket_lazy_singleton_witness :
    ((runOp ⟨⟨"localhost", 8125, none, [], false⟩, some 5, 6⟩
        (MetricOp.gauge "users.online" (some 123) [] 1) 0).1).socket = some 5 ∧
    ∀ q ∈ (runOp ⟨⟨"localhost", 8125, none, [], false⟩, some 5, 6⟩
        (MetricOp.gauge "users.online" (some 123) [] 1) 0).2.1, q.1 = 5 :=
  (socket_lazy_singleton ⟨⟨"localhost", 8125, none, [], false⟩, some 5, 6⟩
    (MetricOp.gauge "users.online" (some 123) [] 1) 0).1 5 rfl

/-- C3: the timing context/decorator emits a timing metric on every exit
path — one call of the decorator-wrapped coroutine performs exactly one
`timing` call whatever the body's outcome (a returned value or a raised
exception), and one `async with` entry that succeeds performs exactly one
`timing` call likewise; in both forms the reported value is the elapsed
wall-clock time between entry and exit, converted to a rounded integer
count of milliseconds when `use_ms` is in effect. -/
theorem timed_emits_exactly_once (statsd_use_ms : Bool) (metric : Option String)
    (tags : List String) (sample_rate : ℚ) (use_ms : Option Bool)
    (module funcName : String) (E A : Type) (body : Except E A) (start stop : ℚ) :
    (∃ c : TimingCall,
       wrappedCall (timed statsd_use_ms metric tags sample_rate use_ms)
           module funcName body start stop
         = (body, [c]) ∧
       c.value = (if effectiveUseMs (timed statsd_use_ms metric tags sample_rate use_ms)
                  then ((pyRound (1000 * (stop - start)) : ℤ) : ℚ)
                  else stop - start)) ∧
    (truthyStr metric = true →
     ∃ c : TimingCall,
       contextRun (timed statsd_use_ms metric tags sample_rate use_ms) start stop body
         = Except.ok (body, [c]) ∧
       c.value = (if effectiveUseMs (timed statsd_use_ms metric tags sample_rate use_ms)
                  then ((pyRound (1000 * (stop - start)) : ℤ) : ℚ)
                  else stop - start)) := by
  constructor
  · refine ⟨timedSend (decoratorMetric (timed statsd_use_ms metric tags sample_rate use_ms)
      module funcName) start stop, rfl, ?_⟩
    by_cases h : truthyStr metric <;>
      simp [decoratorMetric, timed, timedSend, timedValue, effectiveUseMs, h]
  · intro h
    refine ⟨timedSend (timed statsd_use_ms metric tags sample_rate use_ms) start stop,
      ?_, ?_⟩
    · simp [contextRun, aenter, aexit, timed, h]
    · simp [timedSend, timedValue]

/-- Witness for C3 on a concrete context-manager entry. -/
theorem timed_emits_exactly_once_witness :
    ∃ c : TimingCall,
      contextRun (timed false (some "q") [] 1 none) 0 1
          (Except.ok 0 : Except Unit Nat)
        = Except.ok (Except.ok 0, [c]) ∧
      c.value = (if effectiveUseMs (timed false (some "q") [] 1 none)
                 then ((pyRound (1000 * ((1 : ℚ) - 0)) : ℤ) : ℚ)
                 else 1 - 0) :=
  (timed_emits_exactly_once false (some "q") [] 1 none "m" "f" Unit Nat
    (Except.ok 0) 0 1).2 (by decide)

/-- C4: for the `server` and `migrate` commands, supplying neither or
both credential sources yields a usage error before any BigQuery client
exists (the command result is an error, not a call record); otherwise the
client is built from exactly the one supplied source. -/
theorem startup_config_failure_fatal (credentials_file credentials_blob : Option Creds)
    (opts : ServerOpts) (table schema : String) (api_max_connections : Option Int) :
    ((credentials_file = none ∧ credentials_blob = none) ∨
     (credentials_file ≠ none ∧ credentials_blob ≠ none) →
       (∃ m, serverCommand credentials_file credentials_blob opts table
          = Except.error (CliError.usageError m)) ∧
       (∃ m, migrateCommand credentials_file credentials_blob table schema
          = Except.error (CliError.usageError m))) ∧
    (∀ c, credentials_file = some c → credentials_blob = none →
       configure_bigquery credentials_file credentials_blob api_max_connections
         = mkBigQuery c api_max_connections) ∧
    (∀ c, credentials_file = none → credentials_blob = some c →
       configure_bigquery credentials_file credentials_blob api_max_connections
         = mkBigQuery c api_max_connections) := by
  refine ⟨?_, ?_, ?_⟩
  · rintro (⟨h1, h2⟩ | ⟨h1, h2⟩)
    · subst h1; subst h2
      exact ⟨⟨_, rfl⟩, ⟨_, rfl⟩⟩
    · obtain ⟨c1, hc1⟩ := Option.ne_none_iff_exists'.mp h1
      obtain ⟨c2, hc2⟩ := Option.ne_none_iff_exists'.mp h2
      subst hc1; subst hc2
      exact ⟨⟨_, rfl⟩, ⟨_, rfl⟩⟩
  · rintro c rfl rfl
    rfl
  · rintro c rfl rfl
    rfl

/-- Witness for C4: no credentials at all is a usage error for both
commands, and a single source is decoded. -/
theorem startup_config_failure_fatal_witness :
    (∃ m, serverCommand none none
        ⟨"0.0.0.0", 512, none, 16384, 8192, 30, 10000, 500, 30, 10, 60, 1/2, 30, 30⟩
        "p.d.t"
      = Except.error (CliError.usageError m)) ∧
    (∃ m, migrateCommand none none "p.d.t" "schema"
      = Except.error (CliError.usageError m)) ∧
    configure_bigquery (some [("client_email", "e"), ("private_key", "k")]) none none
      = mkBigQuery [("client_email", "e"), ("private_key", "k")] none := by
  have h1 := startup_config_failure_fatal none none
    ⟨"0.0.0.0", 512, none, 16384, 8192, 30, 10000, 500, 30, 10, 60, 1/2, 30, 30⟩
    "p.d.t" "schema" none
  have h2 := startup_config_failure_fatal
    (some [("client_email", "e"), ("private_key", "k")]) none
    ⟨"0.0.0.0", 512, none, 16384, 8192, 30, 10000, 500, 30, 10, 60, 1/2, 30, 30⟩
    "p.d.t" "schema" none
  exact ⟨(h1.1 (Or.inl ⟨rfl, rfl⟩)).1, (h1.1 (Or.inl ⟨rfl, rfl⟩)).2,
    h2.2.1 [("client_email", "e"), ("private_key", "k")] rfl rfl⟩

/-- C7: whichever credentials source is used, the BigQuery client is a
function of precisely the `client_email` and `private_key` fields of the
decoded object — two credential objects agreeing on those two fields
yield the same client — and when both fields are present the client is
exactly that pair (plus the `max_connections` option). -/
theorem credentials_pair_only (c1 c2 : Creds) (mc : Option Int)
    (h1 : List.lookup "client_email" c1 = List.lookup "client_email" c2)
    (h2 : List.lookup "private_key" c1 = List.lookup "private_key" c2) :
    configure_bigquery (some c1) none mc = configure_bigquery (some c2) none mc ∧
    configure_bigquery none (some c1) mc = configure_bigquery none (some c2) mc ∧
    ∀ email pkey, List.lookup "client_email" c1 = some email →
      List.lookup "private_key" c1 = some pkey →
      configure_bigquery (some c1) none mc = Except.ok ⟨email, pkey, mc⟩ ∧
      configure_bigquery none (some c1) mc = Except.ok ⟨email, pkey, mc⟩ := by
  refine ⟨?_, ?_, ?_⟩
  · simp only [configure_bigquery, mkBigQuery, credGet, h1, h2]
  · simp only [configure_bigquery, mkBigQuery, credGet, h1, h2]
  · intro email pkey he hp
    constructor <;> (simp only [configure_bigquery, mkBigQuery, credGet, he, hp]; rfl)

/-- Witness for C7: an extra credential field (`project_id`) does not
change the constructed client. -/
theorem credentials_pair_only_witness :
    configure_bigquery
        (some [("client_email", "e"), ("private_key", "k"), ("project_id", "p")])
        none none
      = configure_bigquery (some [("client_email", "e"), ("private_key", "k")])
        none none ∧
    configure_bigquery
        (some [("client_email", "e"), ("private_key", "k"), ("project_id", "p")])
        none none
      = Except.ok ⟨"e", "k", none⟩ := by
  have h := credentials_pair_only
    [("client_email", "e"), ("private_key", "k"), ("project_id", "p")]
    [("client_email", "e"), ("private_key", "k")] none (by decide) (by decide)
  exact ⟨h.1, (h.2.2 "e" "k" (by decide) (by decide)).1⟩

/-- C8: the `server` command's argument set handed to the underlying
server function is independent of the supplied `cleanup_timeout` value —
the forwarded call record (`ServerCall`) has no such field and the result
is unchanged by varying it. -/
theorem cleanup_timeout_not_forwarded (credentials_file credentials_blob : Option Creds)
    (opts : ServerOpts) (table : String) (t1 t2 : Int) :
    serverCommand credentials_file credentials_blob
        { opts with cleanup_timeout := t1 } table
      = serverCommand credentials_file credentials_blob
        { opts with cleanup_timeout := t2 } table := rfl

end Linehaul
